import Mathlib

set_option maxRecDepth 400000

/-!
Verification development for the product-listing content generation tool
(`app.py`).  The Python source is shallowly embedded: pandas data-frame
operations become list operations, the Python `dict` used for the cleaned
sheet becomes an insertion-ordered association list with in-place update,
and each prompt-building branch becomes a Lean function on strings.
-/

namespace ContentGen

/-! ### String helpers

Python's substring operator `pat in s` is embedded as a boolean check on
the character lists of the strings. -/

/-- Boolean prefix test on character lists. -/
def listPrefixB : List Char → List Char → Bool
  | [], _ => true
  | _ :: _, [] => false
  | a :: as, b :: bs => a == b && listPrefixB as bs

/-- Boolean infix test on character lists: does `p` occur contiguously in
the second list? -/
def listInfixB (p : List Char) : List Char → Bool
  | [] => listPrefixB p []
  | c :: t => listPrefixB p (c :: t) || listInfixB p t

/-- Embedding of Python's `pat in s` substring test. -/
def containsSub (s pat : String) : Bool :=
  listInfixB pat.data s.data

/-- The ASCII whitespace characters stripped by Python's `str.strip()`
and used as separators by `str.split()`. -/
def isPyWhitespace (c : Char) : Bool :=
  c == ' ' || c == '\t' || c == '\n' || c == '\r' || c == '\x0b' || c == '\x0c'

/-- Python `str.strip()`: remove leading and trailing whitespace. -/
def trimStr (s : String) : String :=
  String.mk (((s.data.dropWhile isPyWhitespace).reverse.dropWhile isPyWhitespace).reverse)

/-- Python `str.lower()` (ASCII case mapping). -/
def toLowerStr (s : String) : String :=
  String.mk (s.data.map Char.toLower)

/-- Python `str.split()` with no separator: the maximal runs of
non-whitespace characters. -/
def wordsFold (l : List Char) : List (List Char) :=
  (l.foldr
    (fun c acc =>
      if isPyWhitespace c then [] :: acc
      else
        match acc with
        | [] => [[c]]
        | w :: ws => (c :: w) :: ws)
    []).filter (fun w => !w.isEmpty)

/-- Join words with single spaces (Python `' '.join(words)`). -/
def joinWords : List (List Char) → List Char
  | [] => []
  | [w] => w
  | w :: ws => w ++ ' ' :: joinWords ws

/-! ### Sheet normalization (`df_clean` / `product_data`, app.py lines 156-196)

A sheet is a list of rows; a row is a list of cells; a cell is
`Option String` (`none` models a missing/NaN cell).  `pandas.astype(str)`
renders a missing cell as the literal text `"nan"`. -/

/-- Embedding of `astype(str)` on a cell: a missing cell prints as the text `"nan"`. -/
def strOfCell : Option String → String
  | none => "nan"
  | some s => s

/-- Column selection `df.iloc[:, [3, 4]]`: label from position 3, value
from position 4 (0-indexed); absent positions are missing cells. -/
def sel (row : List (Option String)) : Option String × Option String :=
  (row.getD 3 none, row.getD 4 none)

/-- The cleaning chain applied to the non-header rows, mirroring the
pandas steps in order: select columns 3 and 4; drop rows where both cells
are missing (`dropna(how=all)`); drop rows with a missing label
(`notna`); stringify and strip both cells; drop rows whose label is the
empty string. -/
def processRows (rows : List (List (Option String))) : List (String × String) :=
  ((((rows.map sel).filter
      (fun p => !(p.1.isNone && p.2.isNone))).filter
      (fun p => !p.1.isNone)).map
      (fun p => (trimStr (strOfCell p.1), trimStr (strOfCell p.2)))).filter
      (fun p => p.1 != "")

/-- Embedding of `df_clean`: skip the header row (`df.iloc[1:]`) and clean the rest. -/
def df_clean (df : List (List (Option String))) : List (String × String) :=
  processRows (df.drop 1)

/-- Per-row outcome of the cleaning chain: `none` when the row is
dropped, otherwise the stripped (label, value) pair. -/
def cleanRow (row : List (Option String)) : Option (String × String) :=
  match (sel row).1 with
  | none => none
  | some l =>
    if trimStr l != "" then some (trimStr l, trimStr (strOfCell (sel row).2)) else none

/-- Python `dict` assignment `d[k] = v` on an insertion-ordered
association list: update in place when the key is present, else append. -/
def dictInsert : List (String × String) → String → String → List (String × String)
  | [], k, v => [(k, v)]
  | (k', v') :: rest, k, v =>
    if k' == k then (k, v) :: rest else (k', v') :: dictInsert rest k v

/-- The value coercion applied while building `product_data`: the literal
text `"nan"` (how pandas prints a missing cell) becomes the empty
string. -/
def coerceVal (v : String) : String :=
  if v != "nan" then v else ""

/-- Embedding of `product_data`: fold the cleaned rows into a dict, coercing
NaN-like values to the empty string. -/
def product_data (pairs : List (String × String)) : List (String × String) :=
  pairs.foldl (fun d p => dictInsert d p.1 (coerceVal p.2)) []

/-! ### Field resolution (`get_field`, app.py lines 185-196) -/

/-- The exact-pass predicate of `get_field`: alias equals the label
case-insensitively and the value is non-empty. -/
def exactMatchB (key : String) (p : String × String) : Bool :=
  toLowerStr key == toLowerStr p.1 && p.2 != ""

/-- The substring-pass predicate of `get_field`: alias lowercased occurs
in the label lowercased and the value is non-empty. -/
def subMatchB (key : String) (p : String × String) : Bool :=
  containsSub (toLowerStr p.1) (toLowerStr key) && p.2 != ""

/-- Embedding of `get_field(*possible_keys, default)`: for each alias in priority
order, first scan all entries for an exact (case-insensitive) match with
a non-empty value, then scan all entries for a substring match with a
non-empty value; fall back to the default. -/
def get_field : List String → String → List (String × String) → String
  | [], dflt, _ => dflt
  | k :: ks, dflt, data =>
    match data.find? (exactMatchB k) with
    | some p => p.2
    | none =>
      match data.find? (subMatchB k) with
      | some p => p.2
      | none => get_field ks dflt data

/-- Field `product_info['Product Name']`. -/
def productNameField (data : List (String × String)) : String :=
  get_field ["Product Name"] "Not specified" data

/-- Field `product_info['Brand Name']`. -/
def brandNameField (data : List (String × String)) : String :=
  get_field ["Brand Name"] "Not specified" data

/-- Field `product_info['Ingredients']`. -/
def ingredientsField (data : List (String × String)) : String :=
  get_field ["INGREDIENTS", "Ingredients"] "Not specified" data

/-- Field `product_info['Claims']`. -/
def claimsField (data : List (String × String)) : String :=
  get_field ["Claims"] "Not specified" data

/-- Field `product_info['Ideal For (Gender)']` (default is the empty string). -/
def idealForGenderField (data : List (String × String)) : String :=
  get_field ["Ideal For (Gender)", "Ideal for (Gender)", "Ideal For", "Gender"] "" data


def BRAND_TONALITIES : List (String × String) :=
 [  ("MakeMeeBold",
   "Confident, not cocky: Customers are sure about our products because they work, not because of overselling.\nModern & aspirational: Sleek, smart, and relevant to today's beauty consumer — informed but not clinical.\nEmpowering: Encourages self-expression, not perfection. The name itself speaks to inner and outer confidence.\nClean & refined: Language is crisp and minimal, avoiding clutter or fluff.\nContemporary feminine: It's a women-focused brand, however it is gender-neutral enough to feel inclusive, but still elegant and aspirational.\nResults-oriented: clear about efficacy, with evidence, or focus on USPs"),
  ("Urban Yog",
   "Playful, not pretentious: Skincare is fun and expressive; never boring or overly serious\nRelatable, not preachy: Speaks like a best-friend who gets it - conversational, and easy to connect with\nBold & unapologetic: owns topics that others avoid such as body hair, acne, etc with confidence, humour and zero shame.\nYummy & sensory: language is colourful & indulgent - textures, adjectives, scents, and visuals that make skincare feel like a treat \nYouthful & vibrant: fresh, pop-culture-driven, socially fluent, resonates with Gen Z and young millenials\nWitty & confident: Uses playful quips & puns sometimes, that add spunk & personality without losing meaning or clarity.\nMiniso, cutesy vibes: The brand gives off a miniso-esqe, cutesy vibe"),
  ("Urban Gabru",
   "Confident, not arrogant: Speaks to men who take charge of their lives — ambitious, self-assured, and results-driven.\nSharp & modern: Sleek, innovative, and tuned to the needs of the contemporary Indian man.\nEmpowering & aspirational: Encourages self-improvement and personal growth — grooming is positioned as the start of greatness, not the end goal.\nPractical & purposeful: Clear, direct messaging that communicates product efficacy and everyday relevance — built to support hustle, fitness, and professional ambitions.\nMasculine, yet approachable: Maintains a strong, confident tone without being intimidating — relatable to men from all walks of life.\nDynamic & motivating: Language inspires action and upward momentum.\nPremium & credible: the brand positions itself as a premium and credible brand with authenticity and trustworthiness.\nTo-the-point: Clearly defined USPs and no extra fluff just the way most men communicate."),
  ("Seoulskin",
   "Calm, not flashy: Focuses on simplicity and serenity, avoiding hype and quick-fix messaging.\nConsistent & reliable: Emphasizes long-term results and daily rituals, positioning the brand as a trustworthy skincare companion.\nPurposeful & minimal: Every product and message is intentional — no clutter, no unnecessary complexity, only what truly benefits the skin.\nGentle & nurturing: Soft, caring language conveys comfort and reassurance, appealing to those seeking mindful self-care.\nAuthentic & credible: Rooted in the principles of Korean skincare, the brand communicates expertise without being clinical or intimidating.\nSophisticated & understated: Elegant, refined, and approachable — appeals to consumers who value quality and efficacy over trends.\nMindful & reassuring: Speaks to the desire for slow, consistent care — emphasizing trust, comfort, and skin confidence.")]

def catInstr_electronics : String :=
  "\n            \n            ELECTRONICS CATEGORY - MUST INCLUDE IN TITLE:\n            - Charging cable type (e.g., USB-C, Magnetic, Type-C)\n            - Battery information (e.g., battery capacity, runtime, rechargeable)\n            - Technology used (e.g., IPX7 waterproof, 5-speed motor, sonic technology)\n            - These technical specifications are CRITICAL for electronics products\n            "

def li_seoulskin_unisex : String :=
  "\n                LANGUAGE & STYLE REQUIREMENTS (SEOULSKIN - PREMIUM ENGLISH FOCUS):\n                - MAJORITY (12 reviews) should be in premium English with sophisticated tone\n                - MINORITY (3 reviews) can include light Hinglish for authenticity\n                - English reviews should emphasize K-beauty, innovation, luxury, premium skincare\n                - Keep Hinglish reviews minimal and subtle (e.g., \"bohot acha\", \"mujhe pasand aaya\")\n                - Focus on premium vocabulary: \"radiant\", \"luminous\", \"transformative\", \"innovative\"\n                \n                GENDER DISTRIBUTION (UNISEX PRODUCT):\n                - 12 reviews from female customers (use female names)\n                - 2 reviews from male customers (use male names)\n                - 1 review mentioning product as a gifting option\n                "

def li_seoulskin_other : String :=
  "\n                LANGUAGE & STYLE REQUIREMENTS (SEOULSKIN - PREMIUM ENGLISH FOCUS):\n                - MAJORITY (10-12 reviews) should be in premium English with sophisticated tone\n                - MINORITY (3-5 reviews) can include light Hinglish for authenticity\n                - English reviews should emphasize K-beauty, innovation, luxury, premium skincare\n                - Keep Hinglish reviews minimal and subtle (e.g., \"bohot acha\", \"mujhe pasand aaya\")\n                - Focus on premium vocabulary: \"radiant\", \"luminous\", \"transformative\", \"innovative\"\n                - 1 review mentioning product as a gifting option\n                "

def li_urbanyog_unisex : String :=
  "\n                LANGUAGE & STYLE REQUIREMENTS (URBAN YOG):\n                - 10 reviews in Hinglish with some Gen Z words but simple\n                - 5 reviews in English (premium tone)\n                \n                GENDER DISTRIBUTION (UNISEX PRODUCT):\n                - 13 reviews from female customers (use female names)\n                - 2 reviews from male customers (use male names)\n                - 1 review mentioning product as a gifting option\n                "

def li_urbanyog_other : String :=
  "\n                LANGUAGE & STYLE REQUIREMENTS (URBAN YOG):\n                - 10 reviews in Hinglish with some Gen Z words but simple\n                - 5 reviews in English (premium tone)\n                - 1 review mentioning product as a gifting option\n                "

def li_mmb_unisex : String :=
  "\n                LANGUAGE & STYLE REQUIREMENTS (MAKEMEEBOLD):\n                - 10 reviews in English but in simple tone\n                - 5 reviews in Hinglish with English words\n                \n                GENDER DISTRIBUTION (UNISEX PRODUCT):\n                - 13 reviews from female customers (use female names)\n                - 2 reviews from male customers (use male names)\n                - 1 review mentioning product as a gifting option\n                "

def li_mmb_other : String :=
  "\n                LANGUAGE & STYLE REQUIREMENTS (MAKEMEEBOLD):\n                - 10 reviews in English but in simple tone\n                - 5 reviews in Hinglish with English words\n                - 1 review mentioning product as a gifting option\n                "

def li_urbangabru : String :=
  "\n            LANGUAGE & STYLE REQUIREMENTS (URBAN GABRU - MEN'S BRAND):\n            - 10 reviews in Hinglish and simple\n            - 5 reviews in English\n            - All reviews from male customers (use male names)\n            - 1 review mentioning product as a gifting option\n            "

def li_default : String :=
  "\n            LANGUAGE & STYLE REQUIREMENTS:\n            - Use natural Hinglish like real Indian customers speak (mix of Hindi and English words)\n            - Use casual, conversational tone with Hindi words like: bohot, acha, laga, pasand, mujhe, thoda, ekdum, zyada, etc.\n            - Hindi words should be written in Roman script (Hinglish)\n            - Mix both English and Hindi naturally in the same sentence\n            - Use common phrases like: \"mujhe pasand aaya\", \"bohot acha h\", \"thoda zyada\", \"ekdum fresh\"\n            - 1 review mentioning product as a gifting option\n            "

def rli_seoulskin_unisex : String :=
  "15 Customer Reviews - SEOULSKIN (PREMIUM ENGLISH FOCUS):\n               - MAJORITY (12 reviews) should be in premium English with sophisticated tone\n               - MINORITY (3 reviews) can include light Hinglish for authenticity\n               - English reviews should emphasize K-beauty, innovation, luxury, premium skincare\n               - Keep Hinglish reviews minimal and subtle (e.g., \"bohot acha\", \"mujhe pasand aaya\")\n               - Focus on premium vocabulary: \"radiant\", \"luminous\", \"transformative\", \"innovative\"\n               - GENDER DISTRIBUTION (UNISEX): 12 female reviews + 2 male reviews\n               - Include 1 review mentioning product as a gifting option\n               - Include comparisons like \"better than [old product/technology]\"\n               - Mention relatable problems: \"This helps because I have [common problem]\"\n               - Use common Indian names (first + last name)\n               - Format: Name – Review (no markdown, just plain text)"

def rli_seoulskin_other : String :=
  "15 Customer Reviews - SEOULSKIN (PREMIUM ENGLISH FOCUS):\n               - MAJORITY (10-12 reviews) should be in premium English with sophisticated tone\n               - MINORITY (3-5 reviews) can include light Hinglish for authenticity\n               - English reviews should emphasize K-beauty, innovation, luxury, premium skincare\n               - Keep Hinglish reviews minimal and subtle (e.g., \"bohot acha\", \"mujhe pasand aaya\")\n               - Focus on premium vocabulary: \"radiant\", \"luminous\", \"transformative\", \"innovative\"\n               - Include 1 review mentioning product as a gifting option\n               - Include comparisons like \"better than [old product/technology]\"\n               - Mention relatable problems: \"This helps because I have [common problem]\"\n               - Use common Indian names (first + last name)\n               - Format: Name – Review (no markdown, just plain text)"

def rli_urbanyog_unisex : String :=
  "15 Customer Reviews - URBAN YOG:\n               - 10 reviews in Hinglish with some Gen Z words but simple\n               - 5 reviews in English (premium tone)\n               - GENDER DISTRIBUTION (UNISEX): 13 female reviews + 2 male reviews\n               - Include 1 review mentioning product as a gifting option\n               - Include comparisons like \"better than [old product/technology]\"\n               - Mention relatable problems: \"This helps because I have [common problem]\"\n               - Use common Indian names (first + last name)\n               - Format: Name – Review (no markdown, just plain text)"

def rli_urbanyog_other : String :=
  "15 Customer Reviews - URBAN YOG:\n               - 10 reviews in Hinglish with some Gen Z words but simple\n               - 5 reviews in English (premium tone)\n               - Include 1 review mentioning product as a gifting option\n               - Include comparisons like \"better than [old product/technology]\"\n               - Mention relatable problems: \"This helps because I have [common problem]\"\n               - Use common Indian names (first + last name)\n               - Format: Name – Review (no markdown, just plain text)"

def rli_mmb_unisex : String :=
  "15 Customer Reviews - MAKEMEEBOLD:\n               - 10 reviews in English but in simple tone\n               - 5 reviews in Hinglish with English words\n               - GENDER DISTRIBUTION (UNISEX): 13 female reviews + 2 male reviews\n               - Include 1 review mentioning product as a gifting option\n               - Include comparisons like \"better than [old product/technology]\"\n               - Mention relatable problems: \"This helps because I have [common problem]\"\n               - Use common Indian names (first + last name)\n               - Format: Name – Review (no markdown, just plain text)"

def rli_mmb_other : String :=
  "15 Customer Reviews - MAKEMEEBOLD:\n               - 10 reviews in English but in simple tone\n               - 5 reviews in Hinglish with English words\n               - Include 1 review mentioning product as a gifting option\n               - Include comparisons like \"better than [old product/technology]\"\n               - Mention relatable problems: \"This helps because I have [common problem]\"\n               - Use common Indian names (first + last name)\n               - Format: Name – Review (no markdown, just plain text)"

def rli_urbangabru : String :=
  "15 Customer Reviews - URBAN GABRU (MEN'S BRAND):\n               - 10 reviews in Hinglish and simple\n               - 5 reviews in English\n               - All reviews from male customers (use male names)\n               - Include 1 review mentioning product as a gifting option\n               - Include comparisons like \"better than [old product/technology]\"\n               - Mention relatable problems: \"This helps because I have [common problem]\"\n               - Use common Indian names (first + last name)\n               - Format: Name – Review (no markdown, just plain text)"

def rli_default : String :=
  "15 Customer Reviews in HINGLISH format:\n               - Use natural Hinglish (Hindi-English mix) like: \"bohot acha h\", \"mujhe pasand aaya\", \"ekdum fresh lagta h\"\n               - First 2 reviews: Long story-style testimonials (premium English with Hindi words)\n               - Remaining 13 reviews: Short casual Hinglish reviews\n               - Mix casual Hinglish with some premium English reviews\n               - Include 1 review mentioning product as a gifting option\n               - Include comparisons like \"better than [old product/technology]\"\n               - Mention relatable problems: \"This helps because I have [common problem]\"\n               - Use common Indian names (first + last name)\n               - Format: Name – Review (no markdown, just plain text)"

def review_prompt_raw (li pname brandName target idealGender : String) : String :=
  "\n            Write 15 customer reviews for this product.\n            \n            " ++
  (li ++
  ("\n            \n            REVIEW STRUCTURE:\n            - First 2 reviews: Long, story-style testimonials\n            - Remaining 13 reviews: Short reviews highlighting different aspects\n            - All reviewer names should be common Indian names (first name + last name)\n            \n            REVIEW CONTENT GUIDELINES:\n            - Include answers/benefits that customers generally want to hear\n            - Clear doubts and highlight product benefits\n            - Use comparisons like \"better than [old product/old technology]\"\n            - Mention relatable problems like \"This product really helps because I have [common related problem]\"\n            - Make reviews authentic and helpful for potential buyers\n            \n            EXAMPLES OF HINGLISH STYLE TO FOLLOW:\n            - \"Ye eye patches bohot ache hai, ekdum cooling effect deta h aur eyes fresh lagti h\"\n            - \"First time use kiya aur dark circles thode light lag rahe h, mujhe acha laga ye product\"\n            - \"Daily laptop pe kaam karne se meri eyes bohot tired lagti thi, ye laga ke thoda fresh feel hota h\"\n            - \"Feels like an expensive spa treatment! cooling, de-puffing, and brightening all in one.\"\n            - \"The texture, the packaging, the results—everything about these eye patches screams luxury.\"\n            - \"pehli baar try kiya aur accha laga, mujhe lagta h regular use se aur best result milega\"\n            - \"thanda thanda lagta h lagane ke baad, mujhe toh ye bohot pasand aaya\"\n            - \"Gifted this to my sister and she absolutely loved it!\"\n            \n            TONE VARIATIONS:\n            - Mix casual Hinglish reviews with some premium English reviews\n            - Some reviews should be very casual (more Hindi), some semi-formal (more English)\n            - Include both positive experiences and realistic observations (like \"thoda patience chahiye result ke liye\")\n            \n            IMPORTANT: Provide the output in plain text format only. Do NOT use markdown formatting like **, __, or ###. Just use simple text with reviewer name followed by their review separated by \" – \".\n\n            Product: " ++
  (pname ++
  ("\n            Brand: " ++
  (brandName ++
  ("\n            Target Audience: " ++
  (target ++
  ("\n            Ideal For (Gender): " ++
  (idealGender ++
  ("\n        "))))))))))

def hero_beauty (bt pname uspsFront ingredients claims howToUse target : String) : String :=
  "\nGenerate 8 hero image prompts for a beauty product listing (1500 x 1500 pixels each).\nIMPORTANT: Provide the output in plain text format only. Do NOT use markdown syntax like **, ##, or bullet points with *. Use simple numbered lists and plain text.\n\nCRITICAL NOTE: Hero and A+ images should NOT repeat the same content or visuals. Even if the core message aligns, it must be expressed differently through distinct headlines, layouts, and imagery." ++
  (bt ++
  ("\n\nHero Image 1: Product Highlight\nContent Focus: Always provide these 3 variations\nHero Image 1.a_Product Image (clean product shot on neutral background)\nHero Image 1.b_Product + Box (product with packaging)\nHero Image 1.c_Product + Model (product with model showcasing usage or application)\n\nHero Image 2: Core Value Proposition\nContent Focus: Show what the product does best and the main problem it solves.\nExamples: \"Hydration that Lasts 72 Hours\", \"Brightens, Firms, and Smoothens\", \"Glass Skin Made Simple\"\nGoal: Hook emotionally + highlight the transformation\nVisual Direction: Model or texture-based visual (glowing skin close-up, droplets). Use warm lighting and a big, bold headline with minimal supporting text.\n\nHero Image 3: Benefits Snapshot\nContent Focus: List 3-5 clear user-facing benefits based on USPs and ingredients\nExamples: Deep Hydration, Reduces Dullness, Refines Pores, Enhances Glow, Lightweight Formula\nGoal: Educate quickly about visible results customers can expect\nVisual Direction: Icon grid or short text blocks next to corresponding visuals (skin texture, serum drop, flower ingredient, glow effect). Use clean brand colors and symmetrical spacing.\n\nHero Image 4: Ingredient Power / Science Behind\nContent Focus: Highlight key actives or formulation technology\nExamples: \"Powered by 5% Niacinamide + Hyaluronic Acid\", \"Infused with Rosehip & Avocado Oils\", \"K-Beauty Formula for Glass-Like Skin\"\nGoal: Show authenticity and formulation strength\nVisual Direction: Macro ingredient visuals (bubbles, botanicals, lab glass textures). Combine text overlays and ingredient icons. Use light backgrounds to emphasize purity.\n\nHero Image 5: Comparison Table / Why It's Better\nContent Focus: Show how your product outperforms typical alternatives (creams, masks, etc.)\nGoal: Build trust and show superiority\nVisual Direction: Clean two-column table with brand-color highlights. Add product image near your column.\n\nHero Image 6: How to Use / Routine Step\nContent Focus: Simple, 3-4 step usage guide\nExample: 1. Cleanse your skin, 2. Apply a thin layer evenly, 3. Leave overnight or rinse as directed, 4. Wake up to soft, radiant skin\nGoal: Simplify usage and make it look effortless\nVisual Direction: Step-by-step icons or close-up lifestyle visuals of hand applying product. Use numbered circles and pastel backgrounds.\n\nHero Image 7: Key Differentiator / Main USP\nContent Focus: Highlight one powerful claim or innovation from USPs and Ingredient list\nExamples: \"50,000 PPM Niacinamide - The Glass Skin Secret\", \"Clinically Proven to Hydrate Overnight\", \"Formulated by Korean Skin Experts\"\nGoal: Create a memorable \"hero claim\"\nVisual Direction: Close-up of texture or ingredient with overlay text. Add scientific/clean design cues (beaker glow, droplet macro).\n\nHero Image 8: Before and After using the Product\nContent Focus: Visually showcase the transformation - smoother, clearer, or more radiant skin\nGoal: Build trust by showing tangible, visible improvements\nVisual Direction: Side-by-side layout (\"Before\" left, \"After\" right). Use consistent lighting and angles. Add soft labels and minimal caption like \"Brighter. Smoother. More Hydrated.\" Include product image subtly near \"After\" side. Clean, bright, natural background.\n\nProduct details:\nProduct: " ++
  (pname ++
  ("\nUSPs: " ++
  (uspsFront ++
  ("\nIngredients: " ++
  (ingredients ++
  ("\nClaims: " ++
  (claims ++
  ("\nHow to use: " ++
  (howToUse ++
  ("\nTarget: " ++
  (target ++
  ("\n"))))))))))))))

def hero_electronics (bt pname uspsFront uspBack boxIncludes howToUse knowProduct : String) : String :=
  "\nGenerate 8 hero image prompts for an electronics product listing (1500 x 1500 pixels each).\nIMPORTANT: Provide the output in plain text format only. Do NOT use markdown syntax like **, ##, or bullet points with *. Use simple numbered lists and plain text.\n\nCRITICAL NOTE: Hero and A+ images should NOT repeat the same content or visuals. Even if the core message aligns, it must be expressed differently through distinct headlines, layouts, and imagery." ++
  (bt ++
  ("\n\nHero Image 1: Product Highlight\nContent Focus: Always provide these 3 variations\nHero Image 1.a_Product Image (clean product shot on neutral background)\nHero Image 1.b_Product + Box (product with packaging)\nHero Image 1.c_Product + Model (product being used by a model)\n\nHero Image 2: Core Value Proposition\nContent Focus: Address what the product does, key pain points or highlight main benefit\nExamples: \"Save thousands on Salon Bills\", \"Edge Shave - Zero Cuts. Chiseled Jaw Line\", \"Meet Rizzler- the beard boss\"\nGoal: Hook users emotionally or practically within 3 seconds\nVisual Direction: Product-in-use shot showing a real person. Use short, bold headline + smaller subtext below. Include supporting visual cue (glowing motor light, water resistance, before-after contrast).\n\nHero Image 3: Key Areas of Use / Versatility\nContent Focus: Show how and where the product can be used\nExamples: \"Face • Body • Underarms • Bikini\" for trimmers, \"Blow • Curl • Straighten\" for hair tools\nGoal: Demonstrate multi-use versatility\nVisual Direction: Use product with labeled zones or side-by-side images. Add small icons or silhouettes for clarity. Keep layout clean and symmetrical.\n\nHero Image 4: Feature Highlights / Performance Benefits\nContent Focus: Show top 4-6 standout features in short, clear bullets\nExamples: 3 Interchangeable Heads, Dual-Speed Motor, IPX6 Waterproof, Type-C Charging, 100 Mins Runtime, Skin-Safe Blades\nGoal: Summarize core specs + key benefits in one glance\nVisual Direction: Split layout with product in center, feature callouts surrounding it. Use iconography or minimal graphic arrows to highlight components.\n\nHero Image 5: Comparison Table\nContent Focus: Show why your product is better than others - without naming competitors. Include 5-6 comparison points in tabular format\nGoal: Prove technical and functional superiority\nVisual Direction: Clean, minimal table design with brand-color highlights. Keep text large and legible; use product image or icon beside your column.\n\nHero Image 6: What's in the Box\nContent Focus: Show exactly what the customer receives. Only list all components (main device, attachments, charger, brush, manual, etc.)\nGoal: Set clear buyer expectations and highlight value\nVisual Direction: Flat lay or 3D arrangement on neutral background. Use labels or numbering for each item. Ensure lighting consistency and neat spacing.\n\nHero Image 7: Key Differentiator / Main USP\nContent Focus: Highlight one standout USP or technology that defines your product\nExamples: \"Five heads and where they can be used\", \"Ceramic Blades for Safe Precision\", \"Dual-Speed Motor - Power Meets Control\"\nGoal: Make the customer remember the key innovation or value\nVisual Direction: Close-up macro shot or bold visual metaphor (charging cable glowing, airflow effect, blade detail). Big product name overlay with short USP line underneath.\n\nHero Image 8: Lifestyle / Versatility Slide\nContent Focus: Show different looks or outcomes achievable with one tool\nExamples: \"One Tool. Different Looks\", \"From Office to Party - Styled in Minutes\", \"Your Everyday Styling Partner\"\nGoal: Highlight creative versatility and emotional payoff\nVisual Direction: Collage or side-by-side layout showing multiple styles or use-cases (beard shapes, hair looks). Keep tone aspirational and modern.\n\nProduct details:\nProduct: " ++
  (pname ++
  ("\nMain USP: " ++
  (uspsFront ++
  ("\nOther USPs: " ++
  (uspBack ++
  ("\nBox Includes: " ++
  (boxIncludes ++
  ("\nHow to use: " ++
  (howToUse ++
  ("\nOther details: " ++
  (knowProduct ++
  ("\n"))))))))))))))

def title_prompt_raw (catInstr seoInstr pname brandName category uspsFront ingredients claims netQty knowProduct : String) : String :=
  "\n            Write an Amazon product title (min 230 characters) for a high-converting listing.\n            Use this format: Brand + Product Type + Keywords + Claims.\n            Do not include size, weight, or volume dimensions in the title.\n            \n            IMPORTANT GUIDELINES:\n            - Title character limit: 230-240 characters minimum\n            - Do NOT use words like \"bestselling\" in the title\n            - Do NOT use claims such as \"whitening/brightening/fair\" in the title\n            - Instead, use words/phrases such as \"reduces/promotes/helps in reducing\"" ++
  (catInstr ++
  (seoInstr ++
  ("\n            - Ensure proper spelling and grammar\n\n            Product: " ++
  (pname ++
  ("\n            Brand: " ++
  (brandName ++
  ("\n            Category: " ++
  (category ++
  ("\n            USPs: " ++
  (uspsFront ++
  ("\n            Ingredients: " ++
  (ingredients ++
  ("\n            Claims: " ++
  (claims ++
  ("\n            Net Qty: " ++
  (netQty ++
  ("\n            Know Your Product: " ++
  (knowProduct ++
  ("\n        ")))))))))))))))))))

def bullet_prompt_raw (seoInstr pname brandName uspsFront uspBack uspSide ingredients claims howToUse : String) : String :=
  "\n            Write 7 optimized Amazon bullet points. Each bullet should follow this format:\n            BENEFIT IN CAPS: Followed by a clear, compelling benefit (250–300 characters).\n\n            Avoid mentioning price, value for money, discounts, or any numerical cost-related details. Focus only on features, results, usage, or ingredient benefits.\n            \n            IMPORTANT GUIDELINES:\n            - Do NOT use words like \"bestselling\"\n            - Do NOT use claims such as \"whitening/brightening/fair\"\n            - Instead, use words/phrases such as \"reduces/promotes/helps in reducing\"" ++
  (seoInstr ++
  ("\n            - Ensure proper spelling and grammar\n\n            Product: " ++
  (pname ++
  ("\n            Brand: " ++
  (brandName ++
  ("\n            USPs: " ++
  (uspsFront ++
  (", " ++
  (uspBack ++
  (", " ++
  (uspSide ++
  ("\n            Ingredients: " ++
  (ingredients ++
  ("\n            Claims: " ++
  (claims ++
  ("\n            How to Use: " ++
  (howToUse ++
  ("\n        "))))))))))))))))))

def desc_prompt_raw (seoInstr pname brandName uspsFront ingredients claims howToUse : String) : String :=
  "\n            Write an Amazon HTML product description (max 400 words).\n            Use 2 paragraphs, <p> and <br> tags for light formatting.\n            \n            IMPORTANT GUIDELINES:\n            - Do NOT use words like \"bestselling\"\n            - Do NOT use claims such as \"whitening/brightening/fair\"\n            - Instead, use words/phrases such as \"reduces/promotes/helps in reducing\"" ++
  (seoInstr ++
  ("\n            - Ensure proper spelling and grammar\n            - Strictly avoid exaggerated exclamations/expressions in the description\n\n            Product: " ++
  (pname ++
  ("\n            Brand: " ++
  (brandName ++
  ("\n            USPs: " ++
  (uspsFront ++
  ("\n            Ingredients: " ++
  (ingredients ++
  ("\n            Claims: " ++
  (claims ++
  ("\n            How to Use: " ++
  (howToUse ++
  ("\n        "))))))))))))))


def catInstr_beauty_raw (netQty : String) : String :=
  "\n            \n            BEAUTY CATEGORY - MUST INCLUDE IN TITLE:\n            - Net Qty. in title with proper units (ml or g or units)\n            - Example: \"50ml\", \"30g\", \"60 Patches\"\n            - Net Quantity: " ++
  (netQty ++
  ("\n            "))

def seo_title_present_raw (kw : String) : String :=
  "\n- MUST include these SEO keywords naturally: " ++
  (kw)

def seo_bullets_present_raw (kw : String) : String :=
  "\n- MUST include these SEO keywords naturally across the bullets: " ++
  (kw)

def seo_desc_present_raw (kw : String) : String :=
  "\n- MUST include these SEO keywords naturally in the description: " ++
  (kw)

def brand_tone_raw (brandName tonality : String) : String :=
  "\n\nBRAND TONE: " ++
  (brandName ++
  ("\n" ++
  (tonality ++
  ("\nEnsure all headlines and text overlays reflect this brand's voice and personality."))))

def seo_title_absent : String :=
  "\n- Add SEO keywords with high search volume & relevant keywords"

def seo_bullets_absent : String :=
  "\n- Add SEO keywords with high search volume & relevant keywords"

def seo_desc_absent : String :=
  "\n- Add SEO keywords with high search volume & relevant keywords"

def hero_unsupported : String :=
  "Category not supported. Please specify 'Beauty' or 'Electronics' in the Category field."


/-! ### Brand catalog and normalization (app.py lines 77-150) -/

/-- Preprocessing of `normalize_brand_name`: strip, lowercase, and collapse
internal whitespace (Python `' '.join(s.strip().lower().split())`). -/
def cleanedName (s : String) : String :=
  String.mk (joinWords (wordsFold (s.data.map Char.toLower)))

/-- The direct alias table of `normalize_brand_name`. -/
def brand_mapping : List (String × String) :=
  [("makemeebold", "MakeMeeBold"),
   ("make mee bold", "MakeMeeBold"),
   ("urbanyog", "Urban Yog"),
   ("urban yog", "Urban Yog"),
   ("urbangabru", "Urban Gabru"),
   ("urban gabru", "Urban Gabru"),
   ("seoulskin", "Seoulskin"),
   ("seoul skin", "Seoulskin")]

/-- Python `s.replace(' ', '')`. -/
def removeSpaces (s : String) : String :=
  String.mk (s.data.filter (fun c => c != ' '))

/-- Embedding of `normalize_brand_name`: empty input resolves to no match; otherwise
check the direct alias table, then space-removed alias comparison, then
exact or space-insensitive comparison against the canonical brand names. -/
def normalize_brand_name (brandName : String) : Option String :=
  if brandName == "" then none
  else
    let cleaned := cleanedName brandName
    match brand_mapping.find? (fun p => p.1 == cleaned) with
    | some p => some p.2
    | none =>
      let cleanedNoSpace := removeSpaces cleaned
      match brand_mapping.find? (fun p => removeSpaces p.1 == cleanedNoSpace) with
      | some p => some p.2
      | none =>
        match BRAND_TONALITIES.find?
            (fun p => cleaned == toLowerStr p.1 ||
              removeSpaces cleaned == removeSpaces (toLowerStr p.1)) with
        | some p => some p.1
        | none => none

/-! ### Brand-keyed review policies -/

/-- Standalone reviews section (app.py lines 1299-1380): the language
and style instruction selected by resolved brand and the unisex flag. -/
def language_instruction (brandName : Option String) (isUnisex : Bool) : String :=
  if brandName == some "Seoulskin" then
    (if isUnisex then li_seoulskin_unisex else li_seoulskin_other)
  else if brandName == some "Urban Yog" then
    (if isUnisex then li_urbanyog_unisex else li_urbanyog_other)
  else if brandName == some "MakeMeeBold" then
    (if isUnisex then li_mmb_unisex else li_mmb_other)
  else if brandName == some "Urban Gabru" then li_urbangabru
  else li_default

/-- Full-site bundle review block (app.py lines 839-926): the review
instruction selected by resolved brand and the unisex flag. -/
def review_language_instruction (brandName : Option String) (isUnisex : Bool) : String :=
  if brandName == some "Seoulskin" then
    (if isUnisex then rli_seoulskin_unisex else rli_seoulskin_other)
  else if brandName == some "Urban Yog" then
    (if isUnisex then rli_urbanyog_unisex else rli_urbanyog_other)
  else if brandName == some "MakeMeeBold" then
    (if isUnisex then rli_mmb_unisex else rli_mmb_other)
  else if brandName == some "Urban Gabru" then rli_urbangabru
  else rli_default

/-- The standalone reviews prompt (app.py lines 1382-1420). -/
def review_prompt (brandName : Option String) (isUnisex : Bool)
    (brandDisplay pname target idealGender : String) : String :=
  review_prompt_raw (language_instruction brandName isUnisex) pname brandDisplay target idealGender

/-- Unisex detection (app.py lines 834-836 and 1294-1296): pure substring
checks on the lowercased 'Ideal For (Gender)' field. -/
def is_unisex (genderField : String) : Bool :=
  let g := toLowerStr genderField
  containsSub g "unisex" ||
    (containsSub g "men" && containsSub g "women") ||
    (containsSub g "male" && containsSub g "female")

/-! ### Category-keyed templates -/

/-- Brand tonality block appended to image-prompt instructions
(app.py lines 566-568). -/
def brand_tone (brandName : Option String) : String :=
  match brandName with
  | none => ""
  | some b =>
    match BRAND_TONALITIES.find? (fun p => p.1 == b) with
    | some p => brand_tone_raw b p.2
    | none => ""

/-- Dispatch of `hero_prompt` (app.py lines 570-693): Beauty template,
Electronics template, or the unsupported-category message, keyed solely
on substring checks of the category value. -/
def hero_prompt (category : String) (brandName : Option String)
    (pname uspsFront ingredients claims howToUse target uspBack boxIncludes knowProduct : String) :
    String :=
  if containsSub category "Beauty" then
    hero_beauty (brand_tone brandName) pname uspsFront ingredients claims howToUse target
  else if containsSub category "Electronics" then
    hero_electronics (brand_tone brandName) pname uspsFront uspBack boxIncludes howToUse knowProduct
  else hero_unsupported

/-! ### Amazon content actions (app.py lines 404-531) -/

/-- Embedding of `formatted_keywords`: the keyword text area stripped. -/
def formatted_keywords (text : String) : String :=
  trimStr text

/-- Embedding of `amazon_disabled = not formatted_keywords`: Amazon content buttons
are disabled exactly when the cleaned keyword list is empty. -/
def amazon_disabled (kw : String) : Bool :=
  kw == ""

/-- Title SEO sub-instruction (app.py lines 418-422). -/
def seo_instruction_title (kw : String) : String :=
  if kw != "" then seo_title_present_raw kw else seo_title_absent

/-- Bullets SEO sub-instruction (app.py lines 475-479). -/
def seo_instruction_bullets (kw : String) : String :=
  if kw != "" then seo_bullets_present_raw kw else seo_bullets_absent

/-- Description SEO sub-instruction (app.py lines 506-510). -/
def seo_instruction_desc (kw : String) : String :=
  if kw != "" then seo_desc_present_raw kw else seo_desc_absent

/-- Category-specific title requirements (app.py lines 424-446). -/
def category_instruction (category netQty : String) : String :=
  if containsSub category "Electronics" then catInstr_electronics
  else catInstr_beauty_raw netQty

/-- The full Amazon title instruction (app.py lines 448-468). -/
def title_prompt (kw category brandDisplay pname uspsFront ingredients claims netQty knowProduct : String) : String :=
  title_prompt_raw (category_instruction category netQty) (seo_instruction_title kw)
    pname brandDisplay category uspsFront ingredients claims netQty knowProduct

/-- The full Amazon bullet-points instruction (app.py lines 481-499). -/
def bullet_prompt (kw brandDisplay pname uspsFront uspBack uspSide ingredients claims howToUse : String) : String :=
  bullet_prompt_raw (seo_instruction_bullets kw) pname brandDisplay uspsFront uspBack uspSide
    ingredients claims howToUse

/-- The full Amazon description instruction (app.py lines 512-529). -/
def desc_prompt (kw brandDisplay pname uspsFront ingredients claims howToUse : String) : String :=
  desc_prompt_raw (seo_instruction_desc kw) pname brandDisplay uspsFront ingredients claims howToUse

/-- Clicking "Generate Product Title": impossible (no instruction built,
no collaborator call) while the button is disabled, otherwise the title
instruction is built. -/
def generateTitleAction (kwText category brandDisplay pname uspsFront ingredients claims netQty knowProduct : String) :
    Option String :=
  if amazon_disabled (formatted_keywords kwText) then none
  else some (title_prompt (formatted_keywords kwText) category brandDisplay pname uspsFront
    ingredients claims netQty knowProduct)

/-- Clicking "Generate Bullet Points" under the same keyword guard. -/
def generateBulletsAction (kwText brandDisplay pname uspsFront uspBack uspSide ingredients claims howToUse : String) :
    Option String :=
  if amazon_disabled (formatted_keywords kwText) then none
  else some (bullet_prompt (formatted_keywords kwText) brandDisplay pname uspsFront uspBack
    uspSide ingredients claims howToUse)

/-- Clicking "Generate Description" under the same keyword guard. -/
def generateDescriptionAction (kwText brandDisplay pname uspsFront ingredients claims howToUse : String) :
    Option String :=
  if amazon_disabled (formatted_keywords kwText) then none
  else some (desc_prompt (formatted_keywords kwText) brandDisplay pname uspsFront ingredients
    claims howToUse)

/-! ### Section generation and the content store (app.py lines 375-399) -/

/-- The per-session content store: one stored text per section key. -/
def ContentStore : Type :=
  String → String

/-- Assignment `st.session_state[key] = text`. -/
def setSection (store : ContentStore) (key txt : String) : ContentStore :=
  fun k => if k == key then txt else store k

/-- Embedding of `generate_section`: on success the generated text is stripped and no
error is shown; on failure the exception is caught at this single call
site, the localized message is shown, and the empty string is returned.
The collaborator outcome is passed in as an `Except`. -/
def generate_section (sectionName : String) (response : Except String String) :
    String × Option String :=
  match response with
  | Except.ok content => (trimStr content, none)
  | Except.error e => ("", some ("Error generating " ++ sectionName ++ ": " ++ e))

/-- One button click for a section: exactly one collaborator call, whose
outcome is `response`; the section slot is overwritten with the returned
text and the possible error message is reported. -/
def runGeneration (store : ContentStore) (key sectionName : String)
    (response : Except String String) : ContentStore × Option String :=
  (setSection store key (generate_section sectionName response).1,
   (generate_section sectionName response).2)

end ContentGen

namespace ContentGen

/-! ### Helper lemmas -/

theorem listPrefixB_iff (p l : List Char) :
    listPrefixB p l = true ↔ ∃ t, l = p ++ t := by
  induction p generalizing l with
  | nil => simp [listPrefixB]
  | cons a as ih =>
    cases l with
    | nil => simp [listPrefixB]
    | cons b bs =>
      simp only [listPrefixB, Bool.and_eq_true, beq_iff_eq, ih, List.cons_append,
        List.cons.injEq]
      constructor
      · rintro ⟨rfl, t, rfl⟩
        exact ⟨t, rfl, rfl⟩
      · rintro ⟨t, rfl, rfl⟩
        exact ⟨rfl, t, rfl⟩

theorem listInfixB_iff (p l : List Char) :
    listInfixB p l = true ↔ ∃ s t, l = s ++ (p ++ t) := by
  induction l with
  | nil =>
    simp only [listInfixB, listPrefixB_iff]
    constructor
    · rintro ⟨t, ht⟩
      exact ⟨[], t, by simpa using ht⟩
    · rintro ⟨s, t, hst⟩
      refine ⟨t, ?_⟩
      rcases List.append_eq_nil.mp hst.symm with ⟨rfl, h2⟩
      simpa using h2.symm
  | cons c cs ih =>
    simp only [listInfixB, Bool.or_eq_true, listPrefixB_iff, ih]
    constructor
    · rintro (⟨t, ht⟩ | ⟨s, t, hst⟩)
      · exact ⟨[], t, by simpa using ht⟩
      · exact ⟨c :: s, t, by simp [hst]⟩
    · rintro ⟨s, t, hst⟩
      cases s with
      | nil => exact Or.inl ⟨t, by simpa using hst⟩
      | cons x xs =>
        right
        refine ⟨xs, t, ?_⟩
        simpa using (List.cons.injEq .. ▸ hst).2

theorem containsSub_iff (s pat : String) :
    containsSub s pat = true ↔ ∃ a b, s.data = a ++ (pat.data ++ b) := by
  simpa [containsSub] using listInfixB_iff pat.data s.data

theorem string_data_append (a b : String) : (a ++ b).data = a.data ++ b.data := by
  cases a
  cases b
  rfl

theorem containsSub_appendL {a pat : String} (b : String)
    (h : containsSub a pat = true) : containsSub (a ++ b) pat = true := by
  rcases (containsSub_iff a pat).mp h with ⟨x, y, hxy⟩
  exact (containsSub_iff _ pat).mpr ⟨x, y ++ b.data, by simp [string_data_append, hxy]⟩

theorem containsSub_appendR {b pat : String} (a : String)
    (h : containsSub b pat = true) : containsSub (a ++ b) pat = true := by
  rcases (containsSub_iff b pat).mp h with ⟨x, y, hxy⟩
  exact (containsSub_iff _ pat).mpr ⟨a.data ++ x, y, by simp [string_data_append, hxy]⟩

theorem find?_append_of_none {p : String × String → Bool}
    {l : List (String × String)} (r : List (String × String))
    (h : l.find? p = none) : (l ++ r).find? p = r.find? p := by
  induction l with
  | nil => rfl
  | cons x xs ih =>
    rw [List.find?_cons] at h
    cases hx : p x with
    | true => simp [hx] at h
    | false =>
      simp only [hx] at h
      simpa [List.find?_cons, hx] using ih h

theorem processRows_eq_filterMap (rows : List (List (Option String))) :
    processRows rows = rows.filterMap cleanRow := by
  induction rows with
  | nil => rfl
  | cons r rs ih =>
    simp only [processRows] at ih
    simp only [processRows, List.map_cons, List.filter_cons, List.filterMap_cons]
    cases h1 : (sel r).1 with
    | none =>
      cases h2 : (sel r).2 with
      | none =>
        simp only [cleanRow, h1, h2, Option.isNone_none, Bool.and_self, Bool.not_true]
        simp only [Bool.false_eq_true, if_false]
        exact ih
      | some v =>
        simp only [cleanRow, h1, h2, Option.isNone_none, Option.isNone_some, Bool.and_false,
          Bool.not_false, Bool.not_true, if_true, List.filter_cons]
        simp only [Bool.false_eq_true, if_false]
        exact ih
    | some l =>
      simp only [cleanRow, h1, Option.isNone_some, Bool.false_and, Bool.not_false, if_true,
        List.filter_cons, Option.isNone_none, List.map_cons, strOfCell]
      simp only [strOfCell] at ih
      by_cases h3 : trimStr l != ""
      · simp only [h3, if_true]
        rw [ih]
      · simp only [h3, Bool.false_eq_true, if_false]
        exact ih

theorem containsSub_trans {s q pat : String} (h1 : containsSub s q = true)
    (h2 : containsSub q pat = true) : containsSub s pat = true := by
  rcases (containsSub_iff s q).mp h1 with ⟨x, y, hxy⟩
  rcases (containsSub_iff q pat).mp h2 with ⟨u, v, huv⟩
  exact (containsSub_iff s pat).mpr ⟨x ++ u, v ++ y, by simp [hxy, huv]⟩


/-! ## Claim theorems -/

/-- Claim C1 (amended): in `get_field` the substring pass runs only after
the exact pass separately for each alias in priority order: whenever the
head alias has an exact (case-insensitive, non-empty) match anywhere, the
resolved value comes from such an exactly-matching entry; in particular,
with entries [("USP Back","X"),("USP","Y")] and alias list ["USP"],
resolution returns "Y", not "X".  Across different aliases the priority
order dominates instead (see the counterexample). -/
theorem getField_exact_pass_per_alias :
    (∀ (a : String) (ks : List String) (dflt : String) (data : List (String × String)),
      data.any (exactMatchB a) = true →
      ∃ k v, (k, v) ∈ data ∧ exactMatchB a (k, v) = true ∧
        get_field (a :: ks) dflt data = v) ∧
    get_field ["USP"] "Not specified" (product_data [("USP Back", "X"), ("USP", "Y")]) = "Y" := by
  constructor
  · intro a ks dflt data h
    have hsome : (data.find? (exactMatchB a)).isSome := by
      rw [List.find?_isSome]
      obtain ⟨x, hx, hpx⟩ := List.any_eq_true.mp h
      exact ⟨x, hx, hpx⟩
    obtain ⟨p, hp⟩ := Option.isSome_iff_exists.mp hsome
    refine ⟨p.1, p.2, List.mem_of_find?_eq_some hp, ?_, ?_⟩
    · simpa using List.find?_some hp
    · simp [get_field, hp]
  · decide

/-- Claim C1 witness: the general part applied to the literal scenario of
the claim. -/
theorem getField_exact_pass_per_alias_witness :
    ([("USP Back", "X"), ("USP", "Y")].any (exactMatchB "USP") = true) ∧
    (∃ k v, (k, v) ∈ [("USP Back", "X"), ("USP", "Y")] ∧ exactMatchB "USP" (k, v) = true ∧
      get_field ["USP"] "Not specified" [("USP Back", "X"), ("USP", "Y")] = v) :=
  ⟨by decide,
   getField_exact_pass_per_alias.1 "USP" [] "Not specified"
     [("USP Back", "X"), ("USP", "Y")] (by decide)⟩

/-- Claim C1 counterexample: for the configured field 'Ideal For (Gender)'
with aliases ["Ideal For (Gender)", "Ideal for (Gender)", "Ideal For",
"Gender"], on entries [("Ideal For Skin","X"),("Gender","Y")] an exact
match exists (alias "Gender" against entry ("Gender","Y")), yet resolution
returns "X", the value of a substring match for an earlier alias — and "X"
is not the value of any exactly-matching entry.  So the exact pass does
NOT outrank the substring pass across different aliases. -/
theorem getField_cross_alias_substring_beats_exact :
    ((product_data [("Ideal For Skin", "X"), ("Gender", "Y")]).any
        (fun p => ["Ideal For (Gender)", "Ideal for (Gender)", "Ideal For", "Gender"].any
          (fun a => exactMatchB a p)) = true) ∧
    idealForGenderField (product_data [("Ideal For Skin", "X"), ("Gender", "Y")]) = "X" ∧
    ((product_data [("Ideal For Skin", "X"), ("Gender", "Y")]).any
        (fun p => (["Ideal For (Gender)", "Ideal for (Gender)", "Ideal For", "Gender"].any
          (fun a => exactMatchB a p)) && (p.2 == "X")) = false) := by
  refine ⟨by decide, by decide, by decide⟩

/-- Claim C2 (amended): among entries with distinct labels the first match
in dictionary (sheet) order wins at either pass — if no earlier entry
exact-matches an alias, the first exactly-matching entry supplies the
value, and when no entry at all exact-matches, the first
substring-matching entry supplies it. However, two raw entries that
carry the same label string collapse to a single slot of the sheet
dictionary holding the LAST entry's value, so for duplicated labels the
later entry in sheet order wins, not the first. -/
theorem getField_first_match_and_dict_overwrite :
    (∀ (a : String) (ks : List String) (dflt : String)
        (d1 : List (String × String)) (k1 v1 : String) (d2 : List (String × String)),
      (∀ p ∈ d1, exactMatchB a p = false) →
      exactMatchB a (k1, v1) = true →
      get_field (a :: ks) dflt (d1 ++ (k1, v1) :: d2) = v1) ∧
    (∀ (a : String) (ks : List String) (dflt : String)
        (d1 : List (String × String)) (k1 v1 : String) (d2 : List (String × String)),
      (∀ p ∈ d1 ++ (k1, v1) :: d2, exactMatchB a p = false) →
      (∀ p ∈ d1, subMatchB a p = false) →
      subMatchB a (k1, v1) = true →
      get_field (a :: ks) dflt (d1 ++ (k1, v1) :: d2) = v1) ∧
    (∀ k v1 v2 : String, v2 ≠ "nan" →
      product_data [(k, v1), (k, v2)] = [(k, v2)]) := by
  refine ⟨?_, ?_, ?_⟩
  · intro a ks dflt d1 k1 v1 d2 hnone hmatch
    have hfind : (d1 ++ (k1, v1) :: d2).find? (exactMatchB a) = some (k1, v1) := by
      rw [find?_append_of_none _ (List.find?_eq_none.mpr (by intro x hx; simp [hnone x hx]))]
      simp [List.find?_cons, hmatch]
    simp [get_field, hfind]
  · intro a ks dflt d1 k1 v1 d2 hexall hnone hmatch
    have hexact : (d1 ++ (k1, v1) :: d2).find? (exactMatchB a) = none :=
      List.find?_eq_none.mpr (by intro x hx; simp [hexall x hx])
    have hsub : (d1 ++ (k1, v1) :: d2).find? (subMatchB a) = some (k1, v1) := by
      rw [find?_append_of_none _ (List.find?_eq_none.mpr (by intro x hx; simp [hnone x hx]))]
      simp [List.find?_cons, hmatch]
    simp [get_field, hexact, hsub]
  · intro k v1 v2 h
    have hc : coerceVal v2 = v2 := by simp [coerceVal, bne_iff_ne.mpr h]
    simp [product_data, dictInsert, hc]

/-- Claim C2 witness: first-match-wins applied at a concrete split for
the exact pass and for the substring pass (two entries "USP Back" and
"USP Side" that both substring-match alias "USP"), and the
dictionary-overwrite fact at concrete values. -/
theorem getField_first_match_and_dict_overwrite_witness :
    get_field ["USP"] "" ([("Claims", "Z")] ++ ("usp", "V1") :: [("USP", "V2")]) = "V1" ∧
    get_field ["USP"] "" ([("Claims", "Z")] ++ ("USP Back", "X") :: [("USP Side", "Y")]) =
      "X" ∧
    product_data [("A", "X"), ("A", "Y")] = [("A", "Y")] :=
  ⟨getField_first_match_and_dict_overwrite.1 "USP" [] "" [("Claims", "Z")] "usp" "V1"
      [("USP", "V2")] (by decide) (by decide),
   getField_first_match_and_dict_overwrite.2.1 "USP" [] "" [("Claims", "Z")] "USP Back" "X"
      [("USP Side", "Y")] (by decide) (by decide) (by decide),
   getField_first_match_and_dict_overwrite.2.2 "A" "X" "Y" (by decide)⟩

/-- Claim C2 counterexample: two raw entries with the same label "USP" —
the sheet dictionary keeps the later value "Y", so resolution returns
"Y", not the first entry's "X". -/
theorem getField_duplicate_label_last_wins :
    get_field ["USP"] "Not specified" (product_data [("USP", "X"), ("USP", "Y")]) = "Y" ∧
    ("Y" : String) ≠ "X" :=
  ⟨by decide, by decide⟩

/-- Claim C6: normalizing the raw entries [("Product Name"," Glow Serum "),
("Brand Name","MakeMeeBold"),("INGREDIENTS","Niacinamide")] yields
product_name "Glow Serum" (trimmed), brand_name "MakeMeeBold",
ingredients "Niacinamide" and claims "Not specified" (the default).
In general, a canonical field resolves to its configured default when
there are no entries, and whenever no alias matches any entry at either
pass; an entry whose value is the empty string never counts as a match
for either pass, so an empty string is never presented as a match —
in particular a sheet entry ("Claims","") still resolves to
"Not specified". -/
theorem literal_scenario_resolution :
    productNameField (product_data (df_clean
      [[], [none, none, none, some "Product Name", some " Glow Serum "],
        [none, none, none, some "Brand Name", some "MakeMeeBold"],
        [none, none, none, some "INGREDIENTS", some "Niacinamide"]])) = "Glow Serum" ∧
    brandNameField (product_data (df_clean
      [[], [none, none, none, some "Product Name", some " Glow Serum "],
        [none, none, none, some "Brand Name", some "MakeMeeBold"],
        [none, none, none, some "INGREDIENTS", some "Niacinamide"]])) = "MakeMeeBold" ∧
    ingredientsField (product_data (df_clean
      [[], [none, none, none, some "Product Name", some " Glow Serum "],
        [none, none, none, some "Brand Name", some "MakeMeeBold"],
        [none, none, none, some "INGREDIENTS", some "Niacinamide"]])) = "Niacinamide" ∧
    claimsField (product_data (df_clean
      [[], [none, none, none, some "Product Name", some " Glow Serum "],
        [none, none, none, some "Brand Name", some "MakeMeeBold"],
        [none, none, none, some "INGREDIENTS", some "Niacinamide"]])) = "Not specified" ∧
    (∀ (keys : List String) (dflt : String), get_field keys dflt [] = dflt) ∧
    (∀ (keys : List String) (dflt : String) (data : List (String × String)),
      (∀ a ∈ keys, ∀ p ∈ data, exactMatchB a p = false ∧ subMatchB a p = false) →
      get_field keys dflt data = dflt) ∧
    (∀ a k : String, exactMatchB a (k, "") = false ∧ subMatchB a (k, "") = false) ∧
    get_field ["Claims"] "Not specified" (product_data [("Claims", "")]) =
      "Not specified" := by
  refine ⟨by decide, by decide, by decide, by decide, ?_, ?_, ?_, by decide⟩
  · intro keys dflt
    induction keys with
    | nil => rfl
    | cons k ks ih => simp [get_field, List.find?, ih]
  · intro keys dflt data h
    induction keys with
    | nil => rfl
    | cons k ks ih =>
      have hexact : data.find? (exactMatchB k) = none :=
        List.find?_eq_none.mpr
          (by intro x hx; simp [(h k (List.mem_cons_self k ks) x hx).1])
      have hsub : data.find? (subMatchB k) = none :=
        List.find?_eq_none.mpr
          (by intro x hx; simp [(h k (List.mem_cons_self k ks) x hx).2])
      simp only [get_field, hexact, hsub]
      exact ih (fun a ha p hp => h a (List.mem_cons_of_mem k ha) p hp)
  · intro a k
    constructor <;> simp [exactMatchB, subMatchB]

/-- Claim C6 witness: the no-alias-matches fallback applied to the field
'Claims' on a sheet dictionary that contains no entry matching it (one
unrelated label and one entry with an empty value). -/
theorem literal_scenario_resolution_witness :
    get_field ["Claims"] "Not specified"
      [("Product Name", "Glow Serum"), ("Brand Name", "")] = "Not specified" :=
  literal_scenario_resolution.2.2.2.2.2.1 ["Claims"] "Not specified"
    [("Product Name", "Glow Serum"), ("Brand Name", "")] (by decide)

/-- Claim C7: brand normalization maps "urban  gabru" (internal
whitespace collapsed) and "URBANGABRU" (lowercased, space-insensitive
alias) to the canonical "Urban Gabru", and an unknown brand to no
match. -/
theorem normalize_brand_examples :
    normalize_brand_name "urban  gabru" = some "Urban Gabru" ∧
    normalize_brand_name "URBANGABRU" = some "Urban Gabru" ∧
    normalize_brand_name "SomeOtherBrand" = none :=
  ⟨by decide, by decide, by decide⟩

/-- Claim C9: the sheet reader skips row 0, reads label/value from
positions 3/4 of each later row, drops rows with both cells missing or an
empty label, renders a missing value cell as "nan" and coerces "nan"
values to the empty string in the product dictionary. -/
theorem sheet_reader_shape :
    (∀ (hdr : List (Option String)) (rows : List (List (Option String))),
      df_clean (hdr :: rows) = rows.filterMap cleanRow) ∧
    (∀ row : List (Option String), row.getD 3 none = none → cleanRow row = none) ∧
    (∀ (row : List (Option String)) (l : String),
      row.getD 3 none = some l → trimStr l = "" → cleanRow row = none) ∧
    (∀ (row : List (Option String)) (l : String),
      row.getD 3 none = some l → trimStr l ≠ "" →
      cleanRow row = some (trimStr l, trimStr (strOfCell (row.getD 4 none)))) ∧
    (coerceVal "nan" = "" ∧ ∀ v : String, v ≠ "nan" → coerceVal v = v) ∧
    (∀ (hdr row : List (Option String)) (l : String),
      row.getD 3 none = some l → trimStr l ≠ "" →
      (row.getD 4 none = none ∨ row.getD 4 none = some "nan") →
      product_data (df_clean [hdr, row]) = [(trimStr l, "")]) := by
  refine ⟨?_, ?_, ?_, ?_, ⟨rfl, ?_⟩, ?_⟩
  · intro hdr rows
    simp [df_clean, processRows_eq_filterMap]
  · intro row h
    have hs : (sel row).1 = none := h
    simp [cleanRow, hs]
  · intro row l h hl
    have hs : (sel row).1 = some l := h
    simp [cleanRow, hs, hl]
  · intro row l h hl
    have hs : (sel row).1 = some l := h
    have hs2 : (sel row).2 = row.getD 4 none := rfl
    simp [cleanRow, hs, hs2, hl]
  · intro v h
    simp [coerceVal, bne_iff_ne.mpr h]
  · intro hdr row l hl hlne hv
    have hs : (sel row).1 = some l := hl
    have hclean : cleanRow row = some (trimStr l, "nan") := by
      rcases hv with hv | hv
      · have hv2 : (sel row).2 = none := hv
        simp [cleanRow, hs, hv2, hlne, strOfCell,
          show trimStr "nan" = "nan" from by decide]
      · have hv2 : (sel row).2 = some "nan" := hv
        simp [cleanRow, hs, hv2, hlne, strOfCell,
          show trimStr "nan" = "nan" from by decide]
    have hdf : df_clean [hdr, row] = [(trimStr l, "nan")] := by
      simp [df_clean, processRows_eq_filterMap, hclean]
    rw [hdf]
    simp [product_data, dictInsert, coerceVal]

/-- Claim C9 witness: the per-row characterization and the NaN coercion
applied at concrete rows. -/
theorem sheet_reader_shape_witness :
    cleanRow [none, none, none, some " Label ", some " V "] =
      some (trimStr " Label ", trimStr (strOfCell
        ([none, none, none, some " Label ", some " V "].getD 4 none))) ∧
    product_data (df_clean [[], [none, none, none, some "Key", some "nan"]]) =
      [(trimStr "Key", "")] :=
  ⟨sheet_reader_shape.2.2.2.1 [none, none, none, some " Label ", some " V "] " Label "
      rfl (by decide),
   sheet_reader_shape.2.2.2.2.2 [] [none, none, none, some "Key", some "nan"] "Key"
      rfl (by decide) (Or.inr rfl)⟩

/-- Claim C10: unisex detection is exactly the substring rule on the
lowercased gender text, and because "men" occurs inside "women" and
"male" inside "female", any text containing "women" alone or "female"
alone is classified unisex. -/
theorem is_unisex_substring_rule :
    (∀ g : String, is_unisex g =
      (containsSub (toLowerStr g) "unisex" ||
        (containsSub (toLowerStr g) "men" && containsSub (toLowerStr g) "women") ||
        (containsSub (toLowerStr g) "male" && containsSub (toLowerStr g) "female"))) ∧
    (∀ g : String, containsSub (toLowerStr g) "women" = true → is_unisex g = true) ∧
    (∀ g : String, containsSub (toLowerStr g) "female" = true → is_unisex g = true) ∧
    is_unisex "Women" = true ∧ is_unisex "For female use" = true := by
  refine ⟨fun g => rfl, ?_, ?_, by decide, by decide⟩
  · intro g h
    have hm : containsSub (toLowerStr g) "men" = true := containsSub_trans h (by decide)
    simp [is_unisex, h, hm]
  · intro g h
    have hm : containsSub (toLowerStr g) "male" = true := containsSub_trans h (by decide)
    simp [is_unisex, h, hm]

/-- Claim C10 witness: the "women"-implies-unisex consequence applied to a
concrete gender text. -/
theorem is_unisex_substring_rule_witness :
    containsSub (toLowerStr "Ideal for women") "women" = true ∧
    is_unisex "Ideal for women" = true :=
  ⟨by decide, is_unisex_substring_rule.2.1 "Ideal for women" (by decide)⟩



/-- Claim C3 (amended): every branch that states exact language-split
counts sums to 15 (Seoulskin unisex 12+3; Urban Yog, MakeMeeBold and
Urban Gabru 10+5 on both surfaces; the default full-site branch 2+13),
and the Seoulskin non-unisex branch states the ranges 10-12 and 3-5 whose
extremes pairwise sum to 15.  The first-two-reviews-long-form flag is
built into the fixed review structure of the standalone reviews prompt
for every brand, but on the full-site bundle surface only the default
(unrecognized-brand) policy states it (see the counterexample). -/
theorem reviewPolicy_counts_and_long_form :
    (∀ (b : Option String) (u : Bool) (bd pn ta ig : String),
      containsSub (review_prompt b u bd pn ta ig)
        "First 2 reviews: Long, story-style testimonials" = true) ∧
    (containsSub (language_instruction (some "Seoulskin") true) "(12 reviews)" = true ∧
      containsSub (language_instruction (some "Seoulskin") true) "(3 reviews)" = true ∧
      containsSub (review_language_instruction (some "Seoulskin") true) "(12 reviews)" = true ∧
      containsSub (review_language_instruction (some "Seoulskin") true) "(3 reviews)" = true ∧
      12 + 3 = 15) ∧
    (containsSub (language_instruction (some "Seoulskin") false) "(10-12 reviews)" = true ∧
      containsSub (language_instruction (some "Seoulskin") false) "(3-5 reviews)" = true ∧
      containsSub (review_language_instruction (some "Seoulskin") false) "(10-12 reviews)" = true ∧
      containsSub (review_language_instruction (some "Seoulskin") false) "(3-5 reviews)" = true ∧
      10 + 5 = 15 ∧ 12 + 3 = 15) ∧
    (∀ u : Bool,
      containsSub (language_instruction (some "Urban Yog") u) "10 reviews in Hinglish" = true ∧
      containsSub (language_instruction (some "Urban Yog") u) "5 reviews in English" = true ∧
      containsSub (review_language_instruction (some "Urban Yog") u) "10 reviews in Hinglish" = true ∧
      containsSub (review_language_instruction (some "Urban Yog") u) "5 reviews in English" = true) ∧
    (∀ u : Bool,
      containsSub (language_instruction (some "MakeMeeBold") u) "10 reviews in English" = true ∧
      containsSub (language_instruction (some "MakeMeeBold") u) "5 reviews in Hinglish" = true ∧
      containsSub (review_language_instruction (some "MakeMeeBold") u) "10 reviews in English" = true ∧
      containsSub (review_language_instruction (some "MakeMeeBold") u) "5 reviews in Hinglish" = true) ∧
    (∀ u : Bool,
      containsSub (language_instruction (some "Urban Gabru") u) "10 reviews in Hinglish" = true ∧
      containsSub (language_instruction (some "Urban Gabru") u) "5 reviews in English" = true ∧
      containsSub (review_language_instruction (some "Urban Gabru") u) "10 reviews in Hinglish" = true ∧
      containsSub (review_language_instruction (some "Urban Gabru") u) "5 reviews in English" = true) ∧
    10 + 5 = 15 ∧
    (∀ u : Bool,
      containsSub (review_language_instruction none u)
        "First 2 reviews: Long story-style testimonials" = true ∧
      containsSub (review_language_instruction none u) "Remaining 13 reviews" = true) ∧
    2 + 13 = 15 := by
  refine ⟨?_, ⟨by decide, by decide, by decide, by decide, by decide⟩,
    ⟨by decide, by decide, by decide, by decide, by decide, by decide⟩,
    fun u => by cases u <;> exact ⟨by decide, by decide, by decide, by decide⟩,
    fun u => by cases u <;> exact ⟨by decide, by decide, by decide, by decide⟩,
    fun u => by cases u <;> exact ⟨by decide, by decide, by decide, by decide⟩,
    by decide,
    fun u => by cases u <;> exact ⟨by decide, by decide⟩,
    by decide⟩
  intro b u bd pn ta ig
  unfold review_prompt review_prompt_raw
  apply containsSub_appendR
  apply containsSub_appendR
  apply containsSub_appendL
  decide

/-- Claim C3 counterexample: the full-site bundle's review block for a
recognized brand (Seoulskin, unisex) never flags the first two reviews as
long-form — the instruction contains no "Long", "long" or "First 2"
text at all, so the long-form rule does not hold for both surfaces
regardless of brand. -/
theorem fullSite_brand_policy_lacks_long_form :
    containsSub (review_language_instruction (some "Seoulskin") true) "Long" = false ∧
    containsSub (review_language_instruction (some "Seoulskin") true) "long" = false ∧
    containsSub (review_language_instruction (some "Seoulskin") true) "First 2" = false := by
  refine ⟨by decide, by decide, by decide⟩

/-- Claim C4: with an empty cleaned keyword list every Amazon-specific
action (title, bullets, description) is disabled — no instruction is
built and no collaborator call is made; with a non-empty list each action
builds its instruction and that instruction asserts the keywords as a
hard requirement ("MUST include these SEO keywords naturally"). -/
theorem amazon_keyword_precondition :
    ∀ (kwText category brandDisplay pname uspsFront ingredients claims netQty knowProduct
        uspBack uspSide howToUse : String),
      (formatted_keywords kwText = "" →
        generateTitleAction kwText category brandDisplay pname uspsFront ingredients claims
            netQty knowProduct = none ∧
        generateBulletsAction kwText brandDisplay pname uspsFront uspBack uspSide ingredients
            claims howToUse = none ∧
        generateDescriptionAction kwText brandDisplay pname uspsFront ingredients claims
            howToUse = none) ∧
      (formatted_keywords kwText ≠ "" →
        generateTitleAction kwText category brandDisplay pname uspsFront ingredients claims
            netQty knowProduct = some (title_prompt (formatted_keywords kwText) category
            brandDisplay pname uspsFront ingredients claims netQty knowProduct) ∧
        containsSub (title_prompt (formatted_keywords kwText) category brandDisplay pname
            uspsFront ingredients claims netQty knowProduct)
          "MUST include these SEO keywords naturally" = true ∧
        generateBulletsAction kwText brandDisplay pname uspsFront uspBack uspSide ingredients
            claims howToUse = some (bullet_prompt (formatted_keywords kwText) brandDisplay
            pname uspsFront uspBack uspSide ingredients claims howToUse) ∧
        containsSub (bullet_prompt (formatted_keywords kwText) brandDisplay pname uspsFront
            uspBack uspSide ingredients claims howToUse)
          "MUST include these SEO keywords naturally" = true ∧
        generateDescriptionAction kwText brandDisplay pname uspsFront ingredients claims
            howToUse = some (desc_prompt (formatted_keywords kwText) brandDisplay pname
            uspsFront ingredients claims howToUse) ∧
        containsSub (desc_prompt (formatted_keywords kwText) brandDisplay pname uspsFront
            ingredients claims howToUse)
          "MUST include these SEO keywords naturally" = true) := by
  intro kwText category brandDisplay pname uspsFront ingredients claims netQty knowProduct
    uspBack uspSide howToUse
  constructor
  · intro h
    refine ⟨?_, ?_, ?_⟩ <;>
      simp [generateTitleAction, generateBulletsAction, generateDescriptionAction,
        amazon_disabled, h]
  · intro h
    have hd : amazon_disabled (formatted_keywords kwText) = false := by
      simp [amazon_disabled, h]
    have hseoT : containsSub (seo_instruction_title (formatted_keywords kwText))
        "MUST include these SEO keywords naturally" = true := by
      rw [seo_instruction_title, if_pos (bne_iff_ne.mpr h)]
      unfold seo_title_present_raw
      apply containsSub_appendL
      decide
    have hseoB : containsSub (seo_instruction_bullets (formatted_keywords kwText))
        "MUST include these SEO keywords naturally" = true := by
      rw [seo_instruction_bullets, if_pos (bne_iff_ne.mpr h)]
      unfold seo_bullets_present_raw
      apply containsSub_appendL
      decide
    have hseoD : containsSub (seo_instruction_desc (formatted_keywords kwText))
        "MUST include these SEO keywords naturally" = true := by
      rw [seo_instruction_desc, if_pos (bne_iff_ne.mpr h)]
      unfold seo_desc_present_raw
      apply containsSub_appendL
      decide
    refine ⟨by simp [generateTitleAction, hd], ?_, by simp [generateBulletsAction, hd], ?_,
      by simp [generateDescriptionAction, hd], ?_⟩
    · unfold title_prompt title_prompt_raw
      apply containsSub_appendR
      apply containsSub_appendR
      exact containsSub_appendL _ hseoT
    · unfold bullet_prompt bullet_prompt_raw
      apply containsSub_appendR
      exact containsSub_appendL _ hseoB
    · unfold desc_prompt desc_prompt_raw
      apply containsSub_appendR
      exact containsSub_appendL _ hseoD

/-- Claim C4 witness: the guard applied to a whitespace-only keyword
text (rejected) and a concrete keyword list (instruction built with the
hard requirement). -/
theorem amazon_keyword_precondition_witness :
    (generateTitleAction "   " "Beauty" "B" "P" "U" "I" "C" "N" "K" = none ∧
      generateBulletsAction "   " "B" "P" "U" "UB" "US" "I" "C" "H" = none ∧
      generateDescriptionAction "   " "B" "P" "U" "I" "C" "H" = none) ∧
    (generateTitleAction "serum, glow" "Beauty" "B" "P" "U" "I" "C" "N" "K" =
        some (title_prompt (formatted_keywords "serum, glow") "Beauty" "B" "P" "U" "I" "C"
          "N" "K") ∧
      containsSub (title_prompt (formatted_keywords "serum, glow") "Beauty" "B" "P" "U" "I"
          "C" "N" "K") "MUST include these SEO keywords naturally" = true ∧
      generateBulletsAction "serum, glow" "B" "P" "U" "UB" "US" "I" "C" "H" =
        some (bullet_prompt (formatted_keywords "serum, glow") "B" "P" "U" "UB" "US" "I"
          "C" "H") ∧
      containsSub (bullet_prompt (formatted_keywords "serum, glow") "B" "P" "U" "UB" "US"
          "I" "C" "H") "MUST include these SEO keywords naturally" = true ∧
      generateDescriptionAction "serum, glow" "B" "P" "U" "I" "C" "H" =
        some (desc_prompt (formatted_keywords "serum, glow") "B" "P" "U" "I" "C" "H") ∧
      containsSub (desc_prompt (formatted_keywords "serum, glow") "B" "P" "U" "I" "C" "H")
        "MUST include these SEO keywords naturally" = true) :=
  ⟨(amazon_keyword_precondition "   " "Beauty" "B" "P" "U" "I" "C" "N" "K" "UB" "US" "H").1
      (by decide),
   (amazon_keyword_precondition "serum, glow" "Beauty" "B" "P" "U" "I" "C" "N" "K" "UB"
      "US" "H").2 (by decide)⟩

/-- Claim C5 (amended): when the collaborator call of one section fails,
the error is caught at that single call site and reported as the
localized message "Error generating SECTION: ERR", every OTHER section's
stored text is left untouched, but the requested section's stored text is
overwritten with the empty string (so a previously generated text for
that same section is lost, contrary to the original claim). -/
theorem generation_failure_localized :
    ∀ (store : ContentStore) (key sectionName e : String),
      (runGeneration store key sectionName (Except.error e)).2 =
        some ("Error generating " ++ sectionName ++ ": " ++ e) ∧
      (∀ k : String, k ≠ key → (runGeneration store key sectionName (Except.error e)).1 k =
        store k) ∧
      (runGeneration store key sectionName (Except.error e)).1 key = "" := by
  intro store key sectionName e
  refine ⟨rfl, ?_, ?_⟩
  · intro k hk
    simp [runGeneration, setSection, generate_section, hk]
  · simp [runGeneration, setSection, generate_section]

/-- Claim C5 witness: a failing regeneration of 'title' reports the
localized message, leaves 'bullets' untouched and empties 'title'. -/
theorem generation_failure_localized_witness :
    (runGeneration (setSection (fun _ => "") "title" "OLD") "title" "title"
        (Except.error "boom")).2 =
      some ("Error generating " ++ "title" ++ ": " ++ "boom") ∧
    (runGeneration (setSection (fun _ => "") "title" "OLD") "title" "title"
        (Except.error "boom")).1 "bullets" =
      (setSection (fun _ => "") "title" "OLD") "bullets" ∧
    (runGeneration (setSection (fun _ => "") "title" "OLD") "title" "title"
        (Except.error "boom")).1 "title" = "" :=
  ⟨(generation_failure_localized (setSection (fun _ => "") "title" "OLD") "title" "title"
      "boom").1,
   (generation_failure_localized (setSection (fun _ => "") "title" "OLD") "title" "title"
      "boom").2.1 "bullets" (by decide),
   (generation_failure_localized (setSection (fun _ => "") "title" "OLD") "title" "title"
      "boom").2.2⟩

/-- Claim C5 counterexample: the section whose regeneration failed does
NOT keep its previous value — it held "OLD TITLE" before the action and
holds "" after, so not every section's stored text equals its value
before the action. -/
theorem generation_failure_clears_section :
    (setSection (fun _ => "") "title" "OLD TITLE") "title" = "OLD TITLE" ∧
    (runGeneration (setSection (fun _ => "") "title" "OLD TITLE") "title" "title"
        (Except.error "boom")).1 "title" = "" ∧
    ("" : String) ≠ "OLD TITLE" := by
  refine ⟨by decide, by decide, by decide⟩

/-- Claim C8: for every product record and brand, the hero-image
instruction built with category Electronics contains the
Electronics-only "What's in the Box" beat; the Electronics template text
contains no Beauty-only beat (no "Benefits Snapshot", no ingredient
beat, no before/after beat, no skin-type beat); conversely the Beauty
template always carries its "Benefits Snapshot" beat and never the
box-contents beat.  The two template families are selected solely by the
category value in `hero_prompt`. -/
theorem hero_template_category_selection :
    (∀ (bn : Option String) (pname uspsFront ingredients claims howToUse target uspBack
        boxIncludes knowProduct : String),
      containsSub (hero_prompt "Electronics" bn pname uspsFront ingredients claims howToUse
          target uspBack boxIncludes knowProduct)
        "Hero Image 6: What's in the Box" = true) ∧
    containsSub (hero_prompt "Electronics" none "" "" "" "" "" "" "" "" "")
      "Benefits Snapshot" = false ∧
    containsSub (hero_prompt "Electronics" none "" "" "" "" "" "" "" "" "")
      "Ingredient" = false ∧
    containsSub (hero_prompt "Electronics" none "" "" "" "" "" "" "" "" "")
      "Before and After" = false ∧
    containsSub (hero_prompt "Electronics" none "" "" "" "" "" "" "" "" "")
      "skin type" = false ∧
    (∀ (bn : Option String) (pname uspsFront ingredients claims howToUse target uspBack
        boxIncludes knowProduct : String),
      containsSub (hero_prompt "Beauty" bn pname uspsFront ingredients claims howToUse
          target uspBack boxIncludes knowProduct)
        "Hero Image 3: Benefits Snapshot" = true) ∧
    containsSub (hero_prompt "Beauty" none "" "" "" "" "" "" "" "" "")
      "What's in the Box" = false := by
  refine ⟨?_, by decide, by decide, by decide, by decide, ?_, by decide⟩
  · intro bn pname uspsFront ingredients claims howToUse target uspBack boxIncludes
      knowProduct
    have hred : hero_prompt "Electronics" bn pname uspsFront ingredients claims howToUse
        target uspBack boxIncludes knowProduct =
        hero_electronics (brand_tone bn) pname uspsFront uspBack boxIncludes howToUse
          knowProduct := rfl
    rw [hred]
    unfold hero_electronics
    apply containsSub_appendR
    apply containsSub_appendR
    apply containsSub_appendL
    decide
  · intro bn pname uspsFront ingredients claims howToUse target uspBack boxIncludes
      knowProduct
    have hred : hero_prompt "Beauty" bn pname uspsFront ingredients claims howToUse target
        uspBack boxIncludes knowProduct =
        hero_beauty (brand_tone bn) pname uspsFront ingredients claims howToUse target :=
      rfl
    rw [hred]
    unfold hero_beauty
    apply containsSub_appendR
    apply containsSub_appendR
    apply containsSub_appendL
    decide


end ContentGen
